import Mathlib

/-!
Verification of the database-resilient request handling layer of the
ip-geo-analytics server (server entry module: retry executor `withDbRetry`,
connectivity tracking `dbConnected` / `checkDbConnection`, the `/health` and
`/ready` probe handlers, and the tenant resolution `resolveSiteId`).

Modelling conventions:
* Thrown JavaScript `Error` values are modelled as `JsError` (a message
  string); `withDbRetry` classifies errors purely by message substrings, so
  the message is the only relevant datum.
* The wrapped asynchronous operation is modelled as a function
  `Nat → Except JsError α` giving the outcome of the k-th invocation
  (1-indexed), since the external world may answer differently per attempt.
* The module-level mutable `dbConnected` flag is threaded explicitly:
  functions take the incoming flag and return the final flag.
* `await new Promise(setTimeout, delay)` is modelled by recording the delay
  in a `delays` list, in order; real time is not modelled.
* `throw x` where `x` may be `null` is modelled by `Except.error` carrying an
  `Option JsError` (`none` models throwing the `null` initial `lastError`).
-/

/-- A JavaScript `Error` value, reduced to its message (the only field the
retry logic inspects). -/
structure JsError where
  message : String
deriving Repr, DecidableEq

/-- The options object of `withDbRetry` with its source defaults
`maxRetries = 5`, `initialDelayMs = 1000`, `maxDelayMs = 30000`. -/
structure RetryOptions where
  maxRetries : Nat := 5
  initialDelayMs : Nat := 1000
  maxDelayMs : Nat := 30000
  operationName : String := "database operation"
deriving Repr, DecidableEq

/-- Whether `pat` is an initial segment of `cs`. -/
def listStartsWith : List Char → List Char → Bool
  | [], _ => true
  | _ :: _, [] => false
  | p :: ps, c :: cs => p == c && listStartsWith ps cs

/-- Whether `pat` occurs contiguously anywhere in the list. -/
def listOccurs (pat : List Char) : List Char → Bool
  | [] => listStartsWith pat []
  | c :: cs => listStartsWith pat (c :: cs) || listOccurs pat cs

/-- JavaScript `s.includes(pat)`: `pat` occurs as a substring of `s`. -/
def strIncludes (s pat : String) : Bool :=
  listOccurs pat.toList s.toList

/-- The retryability classification of `withDbRetry` (source lines 141-146):
the error message must mention one of the transient-connectivity markers. -/
def isRetryableError (e : JsError) : Bool :=
  strIncludes e.message "ECONNREFUSED" ||
  strIncludes e.message "connection" ||
  strIncludes e.message "timeout" ||
  strIncludes e.message "ETIMEDOUT" ||
  strIncludes e.message "Can\x27t reach database"

/-- The delay computed before retrying after a failed `attempt`
(source lines 149-152): `min(initialDelayMs * 2^(attempt-1), maxDelayMs)`. -/
def backoffDelay (o : RetryOptions) (attempt : Nat) : Nat :=
  min (o.initialDelayMs * 2 ^ (attempt - 1)) o.maxDelayMs

/-- Observable result of a `withDbRetry` call: the returned value or thrown
value (`Except.error none` = the thrown value is the `null` initial
`lastError`), how many times the wrapped operation ran, the sequence of
backoff delays awaited, and the final value of the `dbConnected` flag. -/
structure RetryResult (α : Type) where
  outcome : Except (Option JsError) α
  invocations : Nat
  delays : List Nat
  dbConnected : Bool

/-- The body of the `for (attempt = 1; attempt <= maxRetries; attempt++)`
loop of `withDbRetry` (source lines 128-164). `fuel` is the number of loop
iterations still allowed (`maxRetries - attempt + 1` at each real call);
when it reaches `0` the loop exits and the current `lastError` is thrown.
On success the flag becomes `true` (lines 131-134); in the catch block the
flag is set `false` unconditionally (line 138) before classification; a
retryable failure with attempts remaining sleeps `backoffDelay` and
continues; otherwise the error just caught is (re)thrown. -/
def withDbRetryAux {α : Type} (op : Nat → Except JsError α) (o : RetryOptions) :
    Nat → Nat → Bool → Option JsError → Nat → List Nat → RetryResult α
  | _, 0, db, lastError, invs, ds => ⟨Except.error lastError, invs, ds, db⟩
  | attempt, fuel + 1, _, _, invs, ds =>
    match op attempt with
    | Except.ok v => ⟨Except.ok v, invs + 1, ds, true⟩
    | Except.error e =>
      if attempt < o.maxRetries ∧ isRetryableError e = true then
        withDbRetryAux op o (attempt + 1) fuel false (some e) (invs + 1)
          (ds ++ [backoffDelay o attempt])
      else
        ⟨Except.error (some e), invs + 1, ds, false⟩

/-- `withDbRetry` (source lines 110-165): run the loop from attempt 1 with
`lastError = null` and the current `dbConnected` flag. -/
def withDbRetry {α : Type} (op : Nat → Except JsError α) (o : RetryOptions)
    (dbConnected : Bool) : RetryResult α :=
  withDbRetryAux op o 1 o.maxRetries dbConnected none 0 []

/-- The module-level connectivity state: `dbConnected` and `lastDbCheck`
(source lines 101-102). -/
structure ConnState where
  dbConnected : Bool
  lastDbCheck : Nat
deriving Repr, DecidableEq

/-- `DB_CHECK_INTERVAL = 5000` ms (source line 103). -/
def DB_CHECK_INTERVAL : Nat := 5000

/-- `checkDbConnection` (source lines 170-185): trust a cached `true` within
the check interval; otherwise probe (`queryOk` models whether
`prisma.$queryRaw SELECT 1` succeeds at `now`), updating the flag and,
only on success, the timestamp. Returns the boolean answer and the new
state. -/
def checkDbConnection (st : ConnState) (now : Nat) (queryOk : Bool) :
    Bool × ConnState :=
  if st.dbConnected = true ∧ now - st.lastDbCheck < DB_CHECK_INTERVAL then
    (true, st)
  else if queryOk then
    (true, { dbConnected := true, lastDbCheck := now })
  else
    (false, { st with dbConnected := false })

/-- The deterministic JSON fields of a `/health` response
(source lines 212-236): status code, `status` field, `database` field. -/
structure HealthResponse where
  code : Nat
  status : String
  database : String
deriving Repr, DecidableEq

/-- The `/health` handler (source lines 212-236): run the connectivity check
through `withDbRetry` with policy `{maxRetries 10, initialDelayMs 3000,
maxDelayMs 15000}`; on success answer 200 healthy/connected, on any thrown
error answer 503 unhealthy/disconnected. -/
def healthHandler (op : Nat → Except JsError Unit) (db : Bool) : HealthResponse :=
  match (withDbRetry op ⟨10, 3000, 15000, "health check"⟩ db).outcome with
  | Except.ok _ => ⟨200, "healthy", "connected"⟩
  | Except.error _ => ⟨503, "unhealthy", "disconnected"⟩

/-- The deterministic JSON fields of a `/ready` response
(source lines 240-258). -/
structure ReadyResponse where
  code : Nat
  status : String
deriving Repr, DecidableEq

/-- The `/ready` handler (source lines 240-258): policy `{maxRetries 12,
initialDelayMs 5000, maxDelayMs 15000}`; 200 ready on success, 503 not
ready on a thrown error. -/
def readyHandler (op : Nat → Except JsError Unit) (db : Bool) : ReadyResponse :=
  match (withDbRetry op ⟨12, 5000, 15000, "readiness check"⟩ db).outcome with
  | Except.ok _ => ⟨200, "ready"⟩
  | Except.error _ => ⟨503, "not ready"⟩

/-- A Node HTTP header value: either a single string or an array of
strings. -/
inductive HeaderValue where
  | str (s : String)
  | arr (l : List String)
deriving Repr, DecidableEq

/-- The request headers consulted by `resolveSiteId` (source lines 391-410):
`referer`, the non-standard `referrer`, and `host`. In Node `host` is a
plain string when present. -/
structure RequestHeaders where
  referer : Option HeaderValue
  referrer : Option HeaderValue
  host : Option String
deriving Repr, DecidableEq

/-- JavaScript truthiness of a `string | undefined` value: `undefined` and
the empty string are falsy. -/
def jsTruthy : Option String → Bool
  | none => false
  | some s => s != ""

/-- JavaScript truthiness of a `string | string[] | undefined` value: arrays
are objects, hence always truthy. -/
def hvTruthy : Option HeaderValue → Bool
  | none => false
  | some (HeaderValue.str s) => s != ""
  | some (HeaderValue.arr _) => true

/-- `explicitReferrer || request.headers.referer || request.headers.referrer`
(source lines 391-392): JavaScript `||` takes the first truthy operand, and
the last operand regardless of truthiness. -/
def headerReferrerRaw (explicitReferrer : Option String)
    (h : RequestHeaders) : Option HeaderValue :=
  if jsTruthy explicitReferrer then explicitReferrer.map HeaderValue.str
  else if hvTruthy h.referer then h.referer
  else h.referrer

/-- `Array.isArray(raw) ? raw[0] : raw` (source lines 393-395): indexing an
empty array yields `undefined`. -/
def headerReferrerVal : Option HeaderValue → Option String
  | none => none
  | some (HeaderValue.str s) => some s
  | some (HeaderValue.arr l) => l.head?

/-- The part of a WHATWG `URL` object that `resolveSiteId` reads. -/
structure URLParts where
  hostname : String
deriving Repr, DecidableEq

/-- The referer branch of `resolveSiteId` (source lines 397-406): if the
resolved referer-like header is truthy, try `new URL(...)` — modelled by the
abstract parser `parseURL`, `none` meaning the constructor throws — and
return its `hostname` when that is truthy; otherwise nothing. -/
def refererHostname (parseURL : String → Option URLParts)
    (explicitReferrer : Option String) (h : RequestHeaders) : Option String :=
  match headerReferrerVal (headerReferrerRaw explicitReferrer h) with
  | none => none
  | some s =>
    if s != "" then
      match parseURL s with
      | some u => if u.hostname != "" then some u.hostname else none
      | none => none
    else none

/-- The characters before the first colon. -/
def takeUntilColon : List Char → List Char
  | [] => []
  | c :: cs => if c = ':' then [] else c :: takeUntilColon cs

/-- `host.split(":")[0]` (source line 410): the segment before the first
colon. -/
def hostPortStripped (host : String) : String :=
  ⟨takeUntilColon host.toList⟩

/-- `resolveSiteId` (source lines 382-414), with the WHATWG URL constructor
abstracted as `parseURL`: explicit id if truthy, else hostname from the
referer-like header, else the `host` header up to the first colon, else
`undefined`. -/
def resolveSiteId (parseURL : String → Option URLParts) (h : RequestHeaders)
    (explicitSiteId explicitReferrer : Option String) : Option String :=
  if jsTruthy explicitSiteId then explicitSiteId
  else
    match refererHostname parseURL explicitReferrer h with
    | some x => some x
    | none =>
      match h.host with
      | some host => if host != "" then some (hostPortStripped host) else none
      | none => none

section Lemmas

variable {α : Type}

/-- Step lemma: a successful invocation ends the loop with the flag `true`. -/
theorem withDbRetryAux_ok (op : Nat → Except JsError α) (o : RetryOptions)
    (attempt fuel : Nat) (db : Bool) (le : Option JsError) (invs : Nat)
    (ds : List Nat) (v : α) (hop : op attempt = Except.ok v) :
    withDbRetryAux op o attempt (fuel + 1) db le invs ds =
      ⟨Except.ok v, invs + 1, ds, true⟩ := by
  simp [withDbRetryAux, hop]

/-- Step lemma: a retryable failure with attempts remaining records the
backoff delay and continues with the flag `false`. -/
theorem withDbRetryAux_retry (op : Nat → Except JsError α) (o : RetryOptions)
    (attempt fuel : Nat) (db : Bool) (le : Option JsError) (invs : Nat)
    (ds : List Nat) (e : JsError) (hop : op attempt = Except.error e)
    (hlt : attempt < o.maxRetries) (hr : isRetryableError e = true) :
    withDbRetryAux op o attempt (fuel + 1) db le invs ds =
      withDbRetryAux op o (attempt + 1) fuel false (some e) (invs + 1)
        (ds ++ [backoffDelay o attempt]) := by
  simp [withDbRetryAux, hop, hlt, hr]

/-- Step lemma: a failure that is non-retryable, or retryable on the final
allowed attempt, ends the loop throwing that error with the flag `false`. -/
theorem withDbRetryAux_fatal (op : Nat → Except JsError α) (o : RetryOptions)
    (attempt fuel : Nat) (db : Bool) (le : Option JsError) (invs : Nat)
    (ds : List Nat) (e : JsError) (hop : op attempt = Except.error e)
    (hstop : ¬ (attempt < o.maxRetries ∧ isRetryableError e = true)) :
    withDbRetryAux op o attempt (fuel + 1) db le invs ds =
      ⟨Except.error (some e), invs + 1, ds, false⟩ := by
  simp [withDbRetryAux, hop]
  intro h1 h2
  exact absurd ⟨h1, h2⟩ hstop

/-- Shifting a mapped range: peeling the first element. -/
theorem range_map_shift (f : Nat → Nat) (a k : Nat) :
    (List.range (k + 1)).map (fun i => f (a + i)) =
      f a :: (List.range k).map (fun i => f (a + 1 + i)) := by
  rw [List.range_succ_eq_map, List.map_cons, List.map_map]
  refine congrArg₂ _ (by simp) ?_
  apply List.map_congr_left
  intro i _
  show f (a + (i + 1)) = f (a + 1 + i)
  congr 1
  omega

/-- Full characterization of the loop on an operation that fails with a
retryable error on every invocation: every allowed attempt runs, every
non-final attempt contributes its backoff delay, the error of the final
attempt is thrown, and the flag ends `false`. -/
theorem withDbRetryAux_allFail (op : Nat → Except JsError α)
    (o : RetryOptions) (e : Nat → JsError)
    (hop : ∀ k, op k = Except.error (e k))
    (hr : ∀ k, isRetryableError (e k) = true) :
    ∀ fuel attempt db le invs ds, attempt + fuel = o.maxRetries + 1 →
      1 ≤ fuel →
      withDbRetryAux op o attempt fuel db le invs ds =
        ⟨Except.error (some (e o.maxRetries)), invs + fuel,
          ds ++ (List.range (fuel - 1)).map (fun i => backoffDelay o (attempt + i)),
          false⟩ := by
  intro fuel
  induction fuel with
  | zero => intro attempt db le invs ds _ hf; omega
  | succ n ih =>
    intro attempt db le invs ds hsum _
    cases n with
    | zero =>
      have ha : attempt = o.maxRetries := by omega
      rw [withDbRetryAux_fatal op o attempt 0 db le invs ds (e attempt)
        (hop attempt) (by intro hc; have := hc.1; omega)]
      simp [ha]
    | succ m =>
      have hlt : attempt < o.maxRetries := by omega
      rw [withDbRetryAux_retry op o attempt (m + 1) db le invs ds (e attempt)
        (hop attempt) hlt (hr attempt)]
      rw [ih (attempt + 1) false (some (e attempt)) (invs + 1)
        (ds ++ [backoffDelay o attempt]) (by omega) (by omega)]
      rw [RetryResult.mk.injEq]
      refine ⟨rfl, by omega, ?_, rfl⟩
      simp only [Nat.add_sub_cancel]
      rw [range_map_shift (backoffDelay o) attempt m, List.append_assoc]
      rfl

/-- If the loop result is a success, the flag ends `true`. -/
theorem withDbRetryAux_ok_flag (op : Nat → Except JsError α) (o : RetryOptions) :
    ∀ fuel attempt db le invs ds v,
      (withDbRetryAux op o attempt fuel db le invs ds).outcome = Except.ok v →
      (withDbRetryAux op o attempt fuel db le invs ds).dbConnected = true := by
  intro fuel
  induction fuel with
  | zero => intro attempt db le invs ds v h; simp [withDbRetryAux] at h
  | succ n ih =>
    intro attempt db le invs ds v h
    cases hop : op attempt with
    | ok w => rw [withDbRetryAux_ok op o attempt n db le invs ds w hop]
    | error e =>
      by_cases hc : attempt < o.maxRetries ∧ isRetryableError e = true
      · rw [withDbRetryAux_retry op o attempt n db le invs ds e hop hc.1 hc.2] at h ⊢
        exact ih _ _ _ _ _ v h
      · rw [withDbRetryAux_fatal op o attempt n db le invs ds e hop hc] at h
        simp at h

/-- If the loop runs at least one iteration (or starts with the flag already
`false`) and the result is a thrown value, the flag ends `false`. -/
theorem withDbRetryAux_error_flag (op : Nat → Except JsError α) (o : RetryOptions) :
    ∀ fuel attempt db le invs ds x, (db = false ∨ 1 ≤ fuel) →
      (withDbRetryAux op o attempt fuel db le invs ds).outcome = Except.error x →
      (withDbRetryAux op o attempt fuel db le invs ds).dbConnected = false := by
  intro fuel
  induction fuel with
  | zero =>
    intro attempt db le invs ds x hdb _
    rcases hdb with hdb | hdb
    · simpa [withDbRetryAux] using hdb
    · omega
  | succ n ih =>
    intro attempt db le invs ds x hdb h
    cases hop : op attempt with
    | ok w =>
      rw [withDbRetryAux_ok op o attempt n db le invs ds w hop] at h
      simp at h
    | error e =>
      by_cases hc : attempt < o.maxRetries ∧ isRetryableError e = true
      · rw [withDbRetryAux_retry op o attempt n db le invs ds e hop hc.1 hc.2] at h ⊢
        exact ih _ _ _ _ _ x (Or.inl rfl) h
      · rw [withDbRetryAux_fatal op o attempt n db le invs ds e hop hc]

/-- Resource bounds of the loop: at most `fuel` further invocations, and the
accumulated delays grow by at most the sum of the backoff delays of the
remaining attempts. -/
theorem withDbRetryAux_bounds (op : Nat → Except JsError α) (o : RetryOptions) :
    ∀ fuel attempt db le invs ds,
      (withDbRetryAux op o attempt fuel db le invs ds).invocations ≤ invs + fuel ∧
      (withDbRetryAux op o attempt fuel db le invs ds).delays.sum ≤
        ds.sum + ((List.range fuel).map (fun i => backoffDelay o (attempt + i))).sum := by
  intro fuel
  induction fuel with
  | zero => intro attempt db le invs ds; simp [withDbRetryAux]
  | succ n ih =>
    intro attempt db le invs ds
    cases hop : op attempt with
    | ok w =>
      rw [withDbRetryAux_ok op o attempt n db le invs ds w hop]
      exact ⟨by simp, Nat.le_add_right _ _⟩
    | error e =>
      by_cases hc : attempt < o.maxRetries ∧ isRetryableError e = true
      · rw [withDbRetryAux_retry op o attempt n db le invs ds e hop hc.1 hc.2]
        obtain ⟨h1, h2⟩ := ih (attempt + 1) false (some e) (invs + 1)
          (ds ++ [backoffDelay o attempt])
        refine ⟨by omega, ?_⟩
        calc (withDbRetryAux op o (attempt + 1) n false (some e) (invs + 1)
                (ds ++ [backoffDelay o attempt])).delays.sum
            ≤ (ds ++ [backoffDelay o attempt]).sum +
                ((List.range n).map (fun i => backoffDelay o (attempt + 1 + i))).sum := h2
          _ = ds.sum + ((List.range (n + 1)).map (fun i => backoffDelay o (attempt + i))).sum := by
              rw [range_map_shift (backoffDelay o) attempt n]
              simp [Nat.add_assoc, Nat.add_comm, Nat.add_left_comm]
      · rw [withDbRetryAux_fatal op o attempt n db le invs ds e hop hc]
        exact ⟨by simp, Nat.le_add_right _ _⟩

/-- A non-retryable error on the first invocation makes `withDbRetry` stop
after exactly one invocation, with no delay, rethrowing that error, flag
`false`. -/
theorem withDbRetry_fatal_first (op : Nat → Except JsError α) (o : RetryOptions)
    (db : Bool) (e : JsError) (hmax : 1 ≤ o.maxRetries)
    (hop : op 1 = Except.error e) (hr : isRetryableError e = false) :
    withDbRetry op o db = ⟨Except.error (some e), 1, [], false⟩ := by
  unfold withDbRetry
  obtain ⟨m, hm⟩ : ∃ m, o.maxRetries = m + 1 := ⟨o.maxRetries - 1, by omega⟩
  rw [hm]
  exact withDbRetryAux_fatal op o 1 m db none 0 [] e hop (by simp [hr])

/-- An operation failing with a retryable error on every invocation makes
`withDbRetry` use all `maxRetries` attempts, record the capped exponential
delays, throw the last error, and leave the flag `false`. -/
theorem withDbRetry_allFail (op : Nat → Except JsError α) (o : RetryOptions)
    (db : Bool) (e : Nat → JsError) (hmax : 1 ≤ o.maxRetries)
    (hop : ∀ k, op k = Except.error (e k))
    (hr : ∀ k, isRetryableError (e k) = true) :
    withDbRetry op o db =
      ⟨Except.error (some (e o.maxRetries)), o.maxRetries,
        (List.range (o.maxRetries - 1)).map
          (fun i => min (o.initialDelayMs * 2 ^ i) o.maxDelayMs),
        false⟩ := by
  unfold withDbRetry
  rw [withDbRetryAux_allFail op o e hop hr o.maxRetries 1 db none 0 []
    (by omega) hmax]
  rw [RetryResult.mk.injEq]
  refine ⟨rfl, by omega, ?_, rfl⟩
  simp only [List.nil_append]
  apply List.map_congr_left
  intro i _
  show backoffDelay o (1 + i) = _
  unfold backoffDelay
  have h1 : 1 + i - 1 = i := by omega
  rw [h1]

end Lemmas

/-- Claim C1: for every retry policy with `maxAttempts = n` (`n` positive)
and every wrapped operation failing on each invocation with a retryable
transient-connectivity error, `withDbRetry` invokes the operation exactly
`n` times, waits between consecutive attempts `min(initialDelayMs *
2^(attempt-1), maxDelayMs)` (the delay recorded after attempt `i+1` is
`min(initialDelayMs * 2^i, maxDelayMs)`), and propagates the last error. -/
theorem C1_exhausted_transient_retries {α : Type} (op : Nat → Except JsError α)
    (o : RetryOptions) (db : Bool) (e : Nat → JsError) (n : Nat)
    (hn : o.maxRetries = n) (hpos : 1 ≤ n)
    (hop : ∀ k, op k = Except.error (e k))
    (hr : ∀ k, isRetryableError (e k) = true) :
    (withDbRetry op o db).invocations = n ∧
    (withDbRetry op o db).delays =
      (List.range (n - 1)).map
        (fun i => min (o.initialDelayMs * 2 ^ i) o.maxDelayMs) ∧
    (withDbRetry op o db).outcome = Except.error (some (e n)) := by
  subst hn
  rw [withDbRetry_allFail op o db e hpos hop hr]
  exact ⟨rfl, rfl, rfl⟩

/-- Concrete instance of C1: policy with three attempts against an operation
always failing with `ECONNREFUSED`. -/
theorem C1_witness :
    (withDbRetry (fun _ : Nat => (Except.error ⟨"ECONNREFUSED"⟩ : Except JsError Nat))
        ⟨3, 1000, 30000, "database operation"⟩ false).invocations = 3 ∧
    (withDbRetry (fun _ : Nat => (Except.error ⟨"ECONNREFUSED"⟩ : Except JsError Nat))
        ⟨3, 1000, 30000, "database operation"⟩ false).delays =
      (List.range (3 - 1)).map (fun i => min (1000 * 2 ^ i) 30000) ∧
    (withDbRetry (fun _ : Nat => (Except.error ⟨"ECONNREFUSED"⟩ : Except JsError Nat))
        ⟨3, 1000, 30000, "database operation"⟩ false).outcome =
      Except.error (some ⟨"ECONNREFUSED"⟩) :=
  C1_exhausted_transient_retries (α := Nat) _ _ _ (fun _ => ⟨"ECONNREFUSED"⟩) 3
    rfl (by decide) (fun _ => rfl) (fun _ => rfl)

/-- Claim C2: a wrapped operation whose first invocation throws a
non-retryable error is invoked exactly once, no delay is performed, and the
same error is rethrown. -/
theorem C2_nonretryable_single_invocation {α : Type}
    (op : Nat → Except JsError α) (o : RetryOptions) (db : Bool) (e : JsError)
    (hmax : 1 ≤ o.maxRetries) (hop : op 1 = Except.error e)
    (hr : isRetryableError e = false) :
    withDbRetry op o db = ⟨Except.error (some e), 1, [], false⟩ :=
  withDbRetry_fatal_first op o db e hmax hop hr

/-- Concrete instance of C2: a uniqueness-constraint failure under the
default policy. -/
theorem C2_witness :
    withDbRetry (fun _ : Nat => (Except.error ⟨"Unique constraint failed"⟩ : Except JsError Nat))
        ⟨5, 1000, 30000, "database operation"⟩ false =
      ⟨Except.error (some ⟨"Unique constraint failed"⟩), 1, [], false⟩ :=
  C2_nonretryable_single_invocation (α := Nat) _ _ _ ⟨"Unique constraint failed"⟩
    (by decide) rfl (by decide)

/-- Claim C3 fails on the code: a non-retryable logic-class error (a
uniqueness-constraint violation) flips the `dbConnected` flag from `true`
to `false`, because the catch block sets the flag `false` before
classifying the error. -/
theorem C3_counterexample :
    (withDbRetry (fun _ : Nat => (Except.error ⟨"Unique constraint failed on the fields: site_id"⟩ : Except JsError Nat))
        ⟨5, 1000, 30000, "track visit"⟩ true).dbConnected ≠ true := by
  decide

/-- Claim C3 amended: a wrapped operation whose first invocation throws a
non-retryable logic-class error leaves the `dbConnected` flag `false` (the
Executor marks connectivity disconnected on every caught error, regardless
of its class). -/
theorem C3_amended_logic_error_flips_flag {α : Type}
    (op : Nat → Except JsError α) (o : RetryOptions) (db : Bool) (e : JsError)
    (hmax : 1 ≤ o.maxRetries) (hop : op 1 = Except.error e)
    (hr : isRetryableError e = false) :
    (withDbRetry op o db).dbConnected = false := by
  rw [withDbRetry_fatal_first op o db e hmax hop hr]

/-- Concrete instance of the amended C3: the `/api/track` policy with a
uniqueness-constraint failure starting from a connected flag. -/
theorem C3_witness :
    (withDbRetry (fun _ : Nat => (Except.error ⟨"Unique constraint failed on the fields: site_id"⟩ : Except JsError Nat))
        ⟨8, 3000, 15000, "track visit"⟩ true).dbConnected = false :=
  C3_amended_logic_error_flips_flag (α := Nat) _ _ _
    ⟨"Unique constraint failed on the fields: site_id"⟩ (by decide) rfl (by decide)

/-- Claim C10: calling `withDbRetry` with `maxRetries = 0` never enters the
loop body: the wrapped operation is never invoked, no delay occurs, the
flag is untouched, and the thrown value is the `null` initial `lastError`
rather than an `Error` object. -/
theorem C10_zero_retries_never_invokes {α : Type}
    (op : Nat → Except JsError α) (d m : Nat) (s : String) (db : Bool) :
    withDbRetry op ⟨0, d, m, s⟩ db = ⟨Except.error none, 0, [], db⟩ :=
  rfl

/-- Claim C4 fails on the code: `checkDbConnection` is a code path other
than the Executor `withDbRetry` that mutates the `dbConnected` flag — on a
stale cache and a failing probe it flips the flag from `true` to `false`. -/
theorem C4_counterexample :
    ((checkDbConnection ⟨true, 0⟩ 5000 false).2).dbConnected ≠
      (⟨true, 0⟩ : ConnState).dbConnected := by
  decide

/-- Claim C4 amended: the `dbConnected` flag is set `true` exactly when an
operation run through `withDbRetry` returns successfully and `false` by any
`withDbRetry` call that throws after at least one attempt (on every caught
error, retryable or not, of any class); additionally `checkDbConnection`
mutates it outside the Executor, setting it `true` after a successful probe
and `false` after a failed probe when the cached value is not trusted. -/
theorem C4_amended_flag_mutation {α : Type} :
    (∀ (op : Nat → Except JsError α) (o : RetryOptions) (db : Bool) (v : α),
      (withDbRetry op o db).outcome = Except.ok v →
      (withDbRetry op o db).dbConnected = true) ∧
    (∀ (op : Nat → Except JsError α) (o : RetryOptions) (db : Bool)
      (x : Option JsError), 1 ≤ o.maxRetries →
      (withDbRetry op o db).outcome = Except.error x →
      (withDbRetry op o db).dbConnected = false) ∧
    (∀ (st : ConnState) (now : Nat),
      ((checkDbConnection st now true).2).dbConnected = true) ∧
    (∀ (st : ConnState) (now : Nat),
      ¬ (st.dbConnected = true ∧ now - st.lastDbCheck < DB_CHECK_INTERVAL) →
      ((checkDbConnection st now false).2).dbConnected = false) := by
  refine ⟨?_, ?_, ?_, ?_⟩
  · intro op o db v h
    exact withDbRetryAux_ok_flag op o o.maxRetries 1 db none 0 [] v h
  · intro op o db x hmax h
    exact withDbRetryAux_error_flag op o o.maxRetries 1 db none 0 [] x
      (Or.inr hmax) h
  · intro st now
    unfold checkDbConnection
    by_cases h1 : st.dbConnected = true ∧ now - st.lastDbCheck < DB_CHECK_INTERVAL
    · rw [if_pos h1]
      exact h1.1
    · rw [if_neg h1]
      rfl
  · intro st now hmiss
    unfold checkDbConnection
    rw [if_neg hmiss]
    rfl

/-- Concrete instance of the amended C4: a successful call sets the flag, an
exhausted call clears it, a successful probe sets it, a stale failing probe
clears it. -/
theorem C4_witness :
    (withDbRetry (fun _ : Nat => (Except.ok 1 : Except JsError Nat))
        ⟨5, 1000, 30000, "database operation"⟩ false).dbConnected = true ∧
    (withDbRetry (fun _ : Nat => (Except.error ⟨"ETIMEDOUT"⟩ : Except JsError Nat))
        ⟨5, 1000, 30000, "database operation"⟩ true).dbConnected = false ∧
    ((checkDbConnection ⟨false, 0⟩ 9000 true).2).dbConnected = true ∧
    ((checkDbConnection ⟨false, 0⟩ 9000 false).2).dbConnected = false :=
  ⟨(C4_amended_flag_mutation (α := Nat)).1 _ _ _ 1 rfl,
   (C4_amended_flag_mutation (α := Nat)).2.1 _ _ _
     (some ⟨"ETIMEDOUT"⟩) (by decide) rfl,
   (C4_amended_flag_mutation (α := Nat)).2.2.1 ⟨false, 0⟩ 9000,
   (C4_amended_flag_mutation (α := Nat)).2.2.2 ⟨false, 0⟩ 9000 (by decide)⟩

/-- Claim C5: after a `withDbRetry` call that returns successfully the
`dbConnected` flag reads `true`; after a call that exhausts all retries on
transient (retryable) failures it reads `false`. -/
theorem C5_flag_after_executor {α : Type} (op : Nat → Except JsError α)
    (o : RetryOptions) (db : Bool) :
    (∀ v, (withDbRetry op o db).outcome = Except.ok v →
      (withDbRetry op o db).dbConnected = true) ∧
    (∀ e : Nat → JsError, 1 ≤ o.maxRetries →
      (∀ k, op k = Except.error (e k)) →
      (∀ k, isRetryableError (e k) = true) →
      (withDbRetry op o db).dbConnected = false) := by
  constructor
  · intro v h
    exact withDbRetryAux_ok_flag op o o.maxRetries 1 db none 0 [] v h
  · intro e hmax hop hr
    rw [withDbRetry_allFail op o db e hmax hop hr]

/-- Concrete instance of C5: one succeeding call and one permanently
timing-out call under the default policy. -/
theorem C5_witness :
    (withDbRetry (fun _ : Nat => (Except.ok 7 : Except JsError Nat))
        ⟨5, 1000, 30000, "database operation"⟩ false).dbConnected = true ∧
    (withDbRetry (fun _ : Nat => (Except.error ⟨"timeout"⟩ : Except JsError Nat))
        ⟨5, 1000, 30000, "database operation"⟩ true).dbConnected = false :=
  ⟨(C5_flag_after_executor _ _ _).1 7 rfl,
   (C5_flag_after_executor _ _ _).2 (fun _ => ⟨"timeout"⟩) (by decide)
     (fun _ => rfl) (fun _ => rfl)⟩

/-- Claim C9: `withDbRetry` always terminates with at most `maxRetries`
invocations of the wrapped operation, and the total waiting time is bounded
by the deterministic sum over the attempts of
`min(initialDelayMs * 2^(k-1), maxDelayMs)`; it never retries
indefinitely (the model is a total function). -/
theorem C9_bounded_invocations_and_wait {α : Type}
    (op : Nat → Except JsError α) (o : RetryOptions) (db : Bool) :
    (withDbRetry op o db).invocations ≤ o.maxRetries ∧
    (withDbRetry op o db).delays.sum ≤
      ((List.range o.maxRetries).map
        (fun i => min (o.initialDelayMs * 2 ^ i) o.maxDelayMs)).sum := by
  obtain ⟨h1, h2⟩ := withDbRetryAux_bounds op o o.maxRetries 1 db none 0 []
  unfold withDbRetry
  refine ⟨by simpa using h1, ?_⟩
  have hmap : (List.range o.maxRetries).map (fun i => backoffDelay o (1 + i)) =
      (List.range o.maxRetries).map
        (fun i => min (o.initialDelayMs * 2 ^ i) o.maxDelayMs) := by
    apply List.map_congr_left
    intro i _
    unfold backoffDelay
    have h3 : 1 + i - 1 = i := by omega
    rw [h3]
  refine h2.trans ?_
  rw [hmap]
  simp

/-- Helper: if the operation fails with retryable errors on attempts up to
`s` and succeeds at attempt `s` (within the budget), the loop returns that
success after `s - attempt` recorded backoff delays. -/
theorem withDbRetryAux_failThenOk {α : Type} (op : Nat → Except JsError α)
    (o : RetryOptions) (e : Nat → JsError) (v : α) (s : Nat)
    (hop : ∀ k, 1 ≤ k → k < s → op k = Except.error (e k))
    (hr : ∀ k, 1 ≤ k → k < s → isRetryableError (e k) = true)
    (hok : op s = Except.ok v) (hs : s ≤ o.maxRetries) :
    ∀ fuel attempt db le invs ds, attempt + fuel = o.maxRetries + 1 →
      1 ≤ attempt → attempt ≤ s →
      withDbRetryAux op o attempt fuel db le invs ds =
        ⟨Except.ok v, invs + (s - attempt) + 1,
          ds ++ (List.range (s - attempt)).map (fun i => backoffDelay o (attempt + i)),
          true⟩ := by
  intro fuel
  induction fuel with
  | zero => intro attempt db le invs ds hsum h1 hle; omega
  | succ n ih =>
    intro attempt db le invs ds hsum h1 hle
    by_cases ha : attempt = s
    · subst ha
      rw [withDbRetryAux_ok op o attempt n db le invs ds v hok]
      simp
    · have ha2 : attempt < s := by omega
      have hlt : attempt < o.maxRetries := by omega
      rw [withDbRetryAux_retry op o attempt n db le invs ds (e attempt)
        (hop attempt h1 ha2) hlt (hr attempt h1 ha2)]
      rw [ih (attempt + 1) false (some (e attempt)) (invs + 1)
        (ds ++ [backoffDelay o attempt]) (by omega) (by omega) (by omega)]
      rw [RetryResult.mk.injEq]
      refine ⟨rfl, by omega, ?_, rfl⟩
      have hs1 : s - attempt = (s - (attempt + 1)) + 1 := by omega
      rw [hs1, range_map_shift (backoffDelay o) attempt (s - (attempt + 1)),
        List.append_assoc]
      rfl

/-- Claim C7: under the readiness policy (12 attempts, 5s initial delay,
15s cap), a connectivity check that fails with retryable errors on attempts
1-4 and succeeds on attempt 5 makes `/ready` answer 200 ready, after
cumulative backoff 5000+10000+15000+15000 = 45000 ms. -/
theorem C7_ready_fifth_attempt (op : Nat → Except JsError Unit) (db : Bool)
    (e : Nat → JsError)
    (hop : ∀ k, 1 ≤ k → k < 5 → op k = Except.error (e k))
    (hr : ∀ k, 1 ≤ k → k < 5 → isRetryableError (e k) = true)
    (hok : op 5 = Except.ok ()) :
    readyHandler op db = ⟨200, "ready"⟩ ∧
    (withDbRetry op ⟨12, 5000, 15000, "readiness check"⟩ db).delays =
      [5000, 10000, 15000, 15000] ∧
    (withDbRetry op ⟨12, 5000, 15000, "readiness check"⟩ db).delays.sum =
      45000 := by
  have h : withDbRetry op ⟨12, 5000, 15000, "readiness check"⟩ db =
      ⟨Except.ok (), 5, [5000, 10000, 15000, 15000], true⟩ := by
    unfold withDbRetry
    exact withDbRetryAux_failThenOk op _ e () 5 hop hr hok (by decide) _ 1 db
      none 0 [] (by decide) (by decide) (by decide)
  refine ⟨?_, ?_, ?_⟩
  · unfold readyHandler
    rw [h]
  · rw [h]
  · rw [h]
    rfl

/-- Concrete instance of C7: a check that times out on the first four
attempts and succeeds on the fifth. -/
theorem C7_witness :
    readyHandler (fun k => if k < 5 then Except.error ⟨"timeout"⟩ else Except.ok ())
        false = ⟨200, "ready"⟩ ∧
    (withDbRetry (fun k => if k < 5 then Except.error ⟨"timeout"⟩ else Except.ok ())
        ⟨12, 5000, 15000, "readiness check"⟩ false).delays =
      [5000, 10000, 15000, 15000] ∧
    (withDbRetry (fun k => if k < 5 then Except.error ⟨"timeout"⟩ else Except.ok ())
        ⟨12, 5000, 15000, "readiness check"⟩ false).delays.sum = 45000 :=
  C7_ready_fifth_attempt _ _ (fun _ => ⟨"timeout"⟩)
    (fun k _ hk => by simp [hk]) (fun _ _ _ => rfl) rfl

/-- Claim C8: under the health policy (10 attempts, 3s initial delay, 15s
cap), a connectivity check failing with a retryable error on every attempt
makes `/health` perform all 10 attempts and answer 503 with status
"unhealthy" and database "disconnected"; and for every operation the
handler returns one of its two structured bodies — no error escapes it. -/
theorem C8_health_exhaustion (op : Nat → Except JsError Unit) (db : Bool)
    (e : Nat → JsError)
    (hop : ∀ k, op k = Except.error (e k))
    (hr : ∀ k, isRetryableError (e k) = true) :
    healthHandler op db = ⟨503, "unhealthy", "disconnected"⟩ ∧
    (withDbRetry op ⟨10, 3000, 15000, "health check"⟩ db).invocations = 10 ∧
    (∀ (op2 : Nat → Except JsError Unit) (db2 : Bool),
      healthHandler op2 db2 = ⟨200, "healthy", "connected"⟩ ∨
      healthHandler op2 db2 = ⟨503, "unhealthy", "disconnected"⟩) := by
  have h := withDbRetry_allFail op ⟨10, 3000, 15000, "health check"⟩ db e
    (by decide) hop hr
  refine ⟨?_, ?_, ?_⟩
  · unfold healthHandler
    rw [h]
  · rw [h]
  · intro op2 db2
    unfold healthHandler
    cases h2 : (withDbRetry op2 ⟨10, 3000, 15000, "health check"⟩ db2).outcome with
    | ok v => exact Or.inl rfl
    | error x => exact Or.inr rfl

/-- Concrete instance of C8: a permanently unreachable database. -/
theorem C8_witness :
    healthHandler (fun _ => Except.error ⟨"Can\x27t reach database server"⟩)
        true = ⟨503, "unhealthy", "disconnected"⟩ ∧
    (withDbRetry (fun _ : Nat => (Except.error ⟨"Can\x27t reach database server"⟩ : Except JsError Unit))
        ⟨10, 3000, 15000, "health check"⟩ true).invocations = 10 ∧
    (healthHandler (fun _ => Except.ok ()) false = ⟨200, "healthy", "connected"⟩ ∨
      healthHandler (fun _ => Except.ok ()) false = ⟨503, "unhealthy", "disconnected"⟩) :=
  ⟨(C8_health_exhaustion _ _ (fun _ => ⟨"Can\x27t reach database server"⟩)
      (fun _ => rfl) (fun _ => rfl)).1,
   (C8_health_exhaustion _ _ (fun _ => ⟨"Can\x27t reach database server"⟩)
      (fun _ => rfl) (fun _ => rfl)).2.1,
   (C8_health_exhaustion (fun _ => Except.error ⟨"timeout"⟩) false
      (fun _ => ⟨"timeout"⟩) (fun _ => rfl) (fun _ => rfl)).2.2
      (fun _ => Except.ok ()) false⟩

/-- Claim C6: `resolveSiteId` resolves by first-match precedence: a truthy
explicit id is returned unchanged regardless of the other inputs; otherwise
a referer-like header that parses as a URL with non-empty hostname yields
that hostname; otherwise a non-empty `host` header yields its part before
the first colon (port suffix stripped); otherwise `undefined`. -/
theorem C6_resolveSiteId_precedence (parseURL : String → Option URLParts)
    (h : RequestHeaders) (eid eref : Option String) :
    (∀ s, eid = some s → s ≠ "" →
      resolveSiteId parseURL h eid eref = some s) ∧
    (jsTruthy eid = false →
      ∀ r u, headerReferrerVal (headerReferrerRaw eref h) = some r → r ≠ "" →
        parseURL r = some u → u.hostname ≠ "" →
        resolveSiteId parseURL h eid eref = some u.hostname) ∧
    (jsTruthy eid = false → refererHostname parseURL eref h = none →
      ∀ host, h.host = some host → host ≠ "" →
        resolveSiteId parseURL h eid eref = some (hostPortStripped host)) ∧
    (jsTruthy eid = false → refererHostname parseURL eref h = none →
      (h.host = none ∨ h.host = some "") →
      resolveSiteId parseURL h eid eref = none) := by
  refine ⟨?_, ?_, ?_, ?_⟩
  · intro s hs hne
    subst hs
    simp [resolveSiteId, jsTruthy, hne]
  · intro heid r u hraw hrne hparse hhn
    have href : refererHostname parseURL eref h = some u.hostname := by
      simp [refererHostname, hraw, hrne, hparse, hhn]
    simp [resolveSiteId, heid, href]
  · intro heid hrefn host hhost hne
    simp [resolveSiteId, heid, hrefn, hhost, hne]
  · intro heid hrefn hcase
    rcases hcase with hc | hc <;> simp [resolveSiteId, heid, hrefn, hc]

/-- Concrete instances of C6: the four scenarios of the spec, with a parser
that accepts exactly the sample referer URL. -/
theorem C6_witness :
    resolveSiteId
      (fun s => if s = "https://b.example.com/x" then some ⟨"b.example.com"⟩ else none)
      ⟨some (HeaderValue.str "https://b.example.com/x"), none, some "c.example.com:3000"⟩
      (some "a") none = some "a" ∧
    resolveSiteId
      (fun s => if s = "https://b.example.com/x" then some ⟨"b.example.com"⟩ else none)
      ⟨some (HeaderValue.str "https://b.example.com/x"), none, some "c.example.com:3000"⟩
      none none = some "b.example.com" ∧
    resolveSiteId
      (fun s => if s = "https://b.example.com/x" then some ⟨"b.example.com"⟩ else none)
      ⟨none, none, some "c.example.com:3000"⟩ none none = some "c.example.com" ∧
    resolveSiteId
      (fun s => if s = "https://b.example.com/x" then some ⟨"b.example.com"⟩ else none)
      ⟨none, none, none⟩ none none = none :=
  ⟨(C6_resolveSiteId_precedence
      (fun s => if s = "https://b.example.com/x" then some ⟨"b.example.com"⟩ else none)
      ⟨some (HeaderValue.str "https://b.example.com/x"), none, some "c.example.com:3000"⟩
      (some "a") none).1 "a" rfl (by decide),
   (C6_resolveSiteId_precedence
      (fun s => if s = "https://b.example.com/x" then some ⟨"b.example.com"⟩ else none)
      ⟨some (HeaderValue.str "https://b.example.com/x"), none, some "c.example.com:3000"⟩
      none none).2.1 rfl "https://b.example.com/x"
     ⟨"b.example.com"⟩ rfl (by decide) (by simp) (by decide),
   (C6_resolveSiteId_precedence
      (fun s => if s = "https://b.example.com/x" then some ⟨"b.example.com"⟩ else none)
      ⟨none, none, some "c.example.com:3000"⟩ none none).2.2.1 rfl rfl
     "c.example.com:3000" rfl (by decide),
   (C6_resolveSiteId_precedence
      (fun s => if s = "https://b.example.com/x" then some ⟨"b.example.com"⟩ else none)
      ⟨none, none, none⟩ none none).2.2.2 rfl rfl (Or.inl rfl)⟩
